import Mathlib

/-!
Verification development for the Data Vault parsing engine of the
`datavault_assistant` repository.

The definitions below are a shallow embedding of the Python sources:

* `configs/settings.py`            — `ParserConfig`
* `core/nodes/hub_parser.py`       — `DataTypeService`, `HubParser`
* `core/nodes/link_parser.py`      — `DataTypeService`, `HubMetadataService`, `LinkParser`
* `core/nodes/sat_parser.py`       — `DataTypeService` (sat variant), `SatelliteParser`
* `core/nodes/lsat_parser.py`      — `LinkSatelliteParser`
* `core/nodes/data_vault_parser.py`— `DataProcessor` (orchestrator) and summaries

Modelling conventions:

* pandas DataFrames are lists of `CatalogRow`; `df[df[c] == v]` is `List.filter`,
  `.iloc[0]` is the head of the filtered list;
* Python exceptions are `Except DVError`; the `DVError` constructors track the
  Python exception classes (`DataVaultValidationError`, `DataVaultParserException`,
  `ValueError`, `IndexError`);
* Python `dict`s keyed by entity name are association lists with
  last-write-wins lookup (`cacheFind`), mirroring dict-comprehension overwrite;
* the `datatype_info` dict built by `lookup_datatypes` is embedded as the total
  function `fun k => lookupOne cfg filtered k`; the builders only ever index it
  with keys it was built from, where both agree;
* Python `set` differences/intersections over business-key lists are embedded as
  `List.filter` membership tests (equivalent for the emptiness and membership
  facts the code branches on); `sorted(list(s))` is `renderSorted`;
* the wall-clock `created_at` field of the metadata block is omitted: it is the
  only output field not determined by the inputs.
-/

namespace DV

/-- The ParserConfig dataclass from configs/settings.py (the one the
orchestrator DataProcessor instantiates).  Note that it carries a
collision_code field, which none of the four parsers read. -/
structure ParserConfig where
  version : String := "1.0.0"
  default_varchar_length : Nat := 255
  target_schema : String := "integration"
  collision_code : String := "mdm"
  deriving Repr, DecidableEq

/-- One row of the source column catalog (the mapping DataFrame read from
metadata_src.csv): SCHEMA_NAME, TABLE_NAME, COLUMN_NAME, DATA_TYPE, LENGTH,
NULLABLE, DESCRIPTION.  LENGTH is kept as the string pandas produces (so a
missing value is the string "nan"). -/
structure CatalogRow where
  schema_name : String
  table_name : String
  column_name : String
  data_type : String
  length : String
  nullable : String := "Y"
  description : String := ""
  deriving Repr, DecidableEq

/-- Exception classes raised by the parsers: DataVaultValidationError
(link_parser.py), DataVaultParserException (hub_parser.py), ValueError and
IndexError (builtin). -/
inductive DVError where
  | validationError (msg : String)
  | parserException (msg : String)
  | valueError (msg : String)
  | indexError
  deriving Repr, DecidableEq

/-- The str(e) the orchestrator stores in an error outcome. -/
def errMsg : DVError → String
  | DVError.validationError msg => msg
  | DVError.parserException msg => msg
  | DVError.valueError msg => msg
  | DVError.indexError => "list index out of range"

/-- Equality of Except values is decidable when both components are; used
to evaluate parse results in witnesses and counterexamples. -/
instance {e a : Type} [DecidableEq e] [DecidableEq a] : DecidableEq (Except e a) := fun x y =>
  match x, y with
  | Except.ok u, Except.ok v =>
    if h : u = v then Decidable.isTrue (by rw [h])
    else Decidable.isFalse (fun hc => by cases hc; exact h rfl)
  | Except.error u, Except.error v =>
    if h : u = v then Decidable.isTrue (by rw [h])
    else Decidable.isFalse (fun hc => by cases hc; exact h rfl)
  | Except.ok _, Except.error _ => Decidable.isFalse (fun hc => by cases hc)
  | Except.error _, Except.ok _ => Decidable.isFalse (fun hc => by cases hc)

/-- Structurally recursive deduplication keeping first occurrences (the
embedding of passing a list through a Python set). -/
def dedupAux : List String → List String → List String
  | [], _ => []
  | x :: xs, seen =>
    if seen.contains x then dedupAux xs seen else x :: dedupAux xs (x :: seen)

/-- Deduplicate a list of strings, keeping first occurrences. -/
def dedupStrings (l : List String) : List String := dedupAux l []

/-- Lexicographic comparison of character lists by code point (the
ordering Python sorted() uses on strings). -/
def charListLt : List Char → List Char → Bool
  | [], [] => false
  | [], _ :: _ => true
  | _ :: _, [] => false
  | a :: as, b :: bs =>
    if a.toNat < b.toNat then true
    else if b.toNat < a.toNat then false
    else charListLt as bs

/-- Lexicographic string comparison by code point. -/
def strLt (s t : String) : Bool := charListLt s.data t.data

/-- Insert a string into a sorted list (helper for renderSorted). -/
def insertSorted (s : String) : List String → List String
  | [] => [s]
  | t :: ts => if strLt s t then s :: t :: ts else t :: insertSorted s ts

/-- Sort a list of strings (insertion sort). -/
def sortStrings (l : List String) : List String := l.foldr insertSorted []

/-- Embedding of Python sorted(list(someSet)) as it appears inside warning
and error messages: deduplicate, sort, render. -/
def renderSorted (l : List String) : String := toString (sortStrings (dedupStrings l))

/-- Result of a single DataTypeService lookup.  A found column yields the
data_type/original_type/length/nullable/description record of
_process_column_type; an absent column yields the default record of
_get_default_type, whose err field holds the recorded warning message. -/
structure TypeInfo where
  data_type : String
  original_type : Option String := none
  length : Option String := none
  nullable : Option String := none
  description : Option String := none
  err : Option String := none
  deriving Repr, DecidableEq

/-- DataTypeService._get_default_type (identical in hub_parser.py,
link_parser.py, sat_parser.py and lsat_parser.py). -/
def getDefaultType (cfg : ParserConfig) (col : String) : TypeInfo :=
  { data_type := "VARCHAR2(" ++ toString cfg.default_varchar_length ++ ")",
    err := some ("Column " ++ col ++ " not found in mapping data") }

/-- DataTypeService._process_varchar of hub_parser.py / link_parser.py:
if length and length not in ["-", "", " "] use the catalog length,
otherwise the configured default length. -/
def processVarchar (cfg : ParserConfig) (length : String) : String :=
  if length != "" && !(["-", "", " "].contains length) then
    "VARCHAR2(" ++ length ++ ")"
  else
    "VARCHAR2(" ++ toString cfg.default_varchar_length ++ ")"

/-- DataTypeService._process_varchar of sat_parser.py / lsat_parser.py:
VARCHAR2(length) if length and length != "-" else the default. -/
def satProcessVarchar (cfg : ParserConfig) (length : String) : String :=
  if length != "" && length != "-" then
    "VARCHAR2(" ++ length ++ ")"
  else
    "VARCHAR2(" ++ toString cfg.default_varchar_length ++ ")"

/-- Embedding of Python str.lower() (ASCII, structurally recursive so
proofs can evaluate it; the entity names in scope are ASCII). -/
def pyLower (s : String) : String := String.mk (s.data.map Char.toLower)

/-- Embedding of Python str.upper() (only used to state claims about
upper-casing). -/
def pyUpper (s : String) : String := String.mk (s.data.map Char.toUpper)

/-- Character-list splitter behind pySplitUnderscore. -/
def splitCharsOn (sep : Char) : List Char → List (List Char)
  | [] => [[]]
  | c :: cs =>
    match splitCharsOn sep cs with
    | [] => if c == sep then [[], [c]] else [[c]]
    | g :: gs => if c == sep then [] :: g :: gs else (c :: g) :: gs

/-- Embedding of Python name.split("_") (structurally recursive; agrees
with Python str.split on a one-character separator). -/
def pySplitUnderscore (s : String) : List String :=
  (splitCharsOn (Char.ofNat 95) s.data).map String.mk

/-- Embedding of Python str.strip(): drop whitespace from both ends
(structurally recursive, unlike String.trim, so proofs can evaluate it). -/
def pyStrip (s : String) : String :=
  String.mk (((s.data.dropWhile Char.isWhitespace).reverse.dropWhile Char.isWhitespace).reverse)

/-- DataTypeService._process_column_type (hub/link variant): stringify and
strip LENGTH, rewrite a VARCHAR2 declared type through _process_varchar. -/
def processColumnType (cfg : ParserConfig) (row : CatalogRow) : TypeInfo :=
  let length := pyStrip row.length
  { data_type := if row.data_type == "VARCHAR2" then processVarchar cfg length else row.data_type,
    original_type := some row.data_type,
    length := some length,
    nullable := some row.nullable,
    description := some row.description,
    err := none }

/-- DataTypeService._process_column_type (sat/lsat variant). -/
def satProcessColumnType (cfg : ParserConfig) (row : CatalogRow) : TypeInfo :=
  let length := pyStrip row.length
  { data_type := if row.data_type == "VARCHAR2" then satProcessVarchar cfg length else row.data_type,
    original_type := some row.data_type,
    length := some length,
    nullable := some row.nullable,
    description := some row.description,
    err := none }

/-- The body of DataTypeService.lookup_datatypes (hub/link variant) for one
requested column: filter the mapping rows on COLUMN_NAME; if empty fall back
to the default type (recording the warning in the err field), else process
the first matching row. -/
def lookupOne (cfg : ParserConfig) (rows : List CatalogRow) (key : String) : TypeInfo :=
  match (rows.filter (fun r => r.column_name == key)).head? with
  | none => getDefaultType cfg key
  | some row => processColumnType cfg row

/-- The body of DataTypeService.lookup_datatypes (sat/lsat variant) for one
requested column. -/
def satLookupOne (cfg : ParserConfig) (rows : List CatalogRow) (key : String) : TypeInfo :=
  match (rows.filter (fun r => r.column_name == key)).head? with
  | none => getDefaultType cfg key
  | some row => satProcessColumnType cfg row

/-- Hub record of the classification model (input JSON). -/
structure Hub where
  name : String
  business_keys : List String
  source_tables : List String
  description : String := ""
  deriving Repr, DecidableEq

/-- Link record of the classification model. -/
structure Link where
  name : String
  related_hubs : List String
  business_keys : List String
  source_tables : List String
  description : String := ""
  deriving Repr, DecidableEq

/-- Satellite record of the classification model. -/
structure Satellite where
  name : String
  hub : String
  business_keys : List String
  source_table : String
  descriptive_attrs : List String
  deriving Repr, DecidableEq

/-- Link-Satellite record of the classification model. -/
structure LinkSatellite where
  name : String
  link : String
  business_keys : List String
  source_table : String
  descriptive_attrs : List String
  deriving Repr, DecidableEq

/-- The whole classification model (the input_data JSON object). -/
structure Model where
  hubs : List Hub := []
  links : List Link := []
  satellites : List Satellite := []
  link_satellites : List LinkSatellite := []
  deriving Repr, DecidableEq

/-- The metadata block of a target load document (created_at omitted, see
the module comment). -/
structure DocMetadata where
  version : String
  validation_status : String
  validation_warnings : Option (List String)
  deriving Repr, DecidableEq

/-- The source field of an output column: absent (None), a plain list of
key names, a single name/dtype record, or a list of name/dtype records. -/
inductive ColSource where
  | nosource
  | keys (ks : List String)
  | single (name dtype : String)
  | composite (entries : List (String × String))
  deriving Repr, DecidableEq

/-- One column of a target load document.  key_type is optional because the
descriptive columns emitted by sat_parser.py / lsat_parser.py carry no
key_type entry; parent only appears on the hub hash keys of a Link. -/
structure Column where
  target : String
  dtype : String
  key_type : Option String := none
  parent : Option String := none
  source : ColSource
  deriving Repr, DecidableEq

/-- A target load document (the output dict of the four builders).
source_schema is optional because SatelliteParser._get_source_schema returns
None when the source table is absent from the catalog; collision_code and
description are optional because the sat/lsat output dicts do not carry
them. -/
structure TargetDoc where
  source_schema : Option String
  source_table : String
  target_schema : String
  target_table : String
  target_entity_type : String
  parent_table : Option String := none
  collision_code : Option String := none
  description : Option String := none
  metadata : DocMetadata
  columns : List Column
  deriving Repr, DecidableEq

/-- The _build_metadata method shared (textually) by all four parsers. -/
def buildMetadata (cfg : ParserConfig) (warnings : List String) : DocMetadata :=
  { version := cfg.version,
    validation_status := if warnings.isEmpty then "valid" else "warnings",
    validation_warnings := if warnings.isEmpty then none else some warnings }

/-- HubParser.validate: required fields are enforced by the record type;
empty business_keys / source_tables raise DataVaultParserException; no
warnings are ever produced. -/
def hubValidate (hub : Hub) : Except DVError (List String) :=
  if hub.business_keys.isEmpty then
    Except.error (DVError.parserException "Business keys cannot be empty")
  else if hub.source_tables.isEmpty then
    Except.error (DVError.parserException "Source tables cannot be empty")
  else
    Except.ok []

/-- HubParser._get_source_schema: raise ValueError on an empty filtered
DataFrame, else the SCHEMA_NAME of its first row. -/
def hubGetSourceSchema (filtered : List CatalogRow) : Except DVError String :=
  match filtered with
  | [] => Except.error (DVError.valueError "Could not determine source schema from mapping data")
  | row :: _ => Except.ok row.schema_name

/-- HubParser._build_columns: the composite hash-key column
dv_hkey_(lowercased hub name) with the raw business-key list as source,
followed by one CUS_-prefixed biz_key column per business key. -/
def hubBuildColumns (hub : Hub) (info : String → TypeInfo) : List Column :=
  { target := "dv_hkey_" ++ pyLower hub.name,
    dtype := "raw",
    key_type := some "hash_key_hub",
    source := ColSource.keys hub.business_keys } ::
  hub.business_keys.map (fun k =>
    { target := "CUS_" ++ k,
      dtype := (info k).data_type,
      key_type := some "biz_key",
      source := ColSource.single k (info k).data_type })

/-- HubParser._build_output_dict: source_table is the lowercased first
source table (IndexError on an empty list), collision_code is the second
underscore-separated segment of the hub name (IndexError when there is
none), target_table is the lowercased hub name. -/
def hubBuildOutputDict (cfg : ParserConfig) (hub : Hub) (schema : String)
    (info : String → TypeInfo) (warnings : List String) : Except DVError TargetDoc :=
  match hub.source_tables with
  | [] => Except.error DVError.indexError
  | t :: _ =>
    match (pySplitUnderscore hub.name).get? 1 with
    | none => Except.error DVError.indexError
    | some ccode =>
      Except.ok
        { source_schema := some schema,
          source_table := pyLower t,
          target_schema := cfg.target_schema,
          target_table := pyLower hub.name,
          target_entity_type := "hub",
          collision_code := some ccode,
          description := some hub.description,
          metadata := buildMetadata cfg warnings,
          columns := hubBuildColumns hub info }

/-- HubParser.parse: validate, filter the mapping rows on the source
tables, resolve the source schema, look up datatypes on the filtered rows,
build the output dict. -/
def hubParse (cfg : ParserConfig) (hub : Hub) (rows : List CatalogRow) :
    Except DVError TargetDoc :=
  match hubValidate hub with
  | Except.error e => Except.error e
  | Except.ok warnings =>
    match hubGetSourceSchema (rows.filter (fun r => hub.source_tables.contains r.table_name)) with
    | Except.error e => Except.error e
    | Except.ok schema =>
      hubBuildOutputDict cfg hub schema
        (fun k => lookupOne cfg (rows.filter (fun r => hub.source_tables.contains r.table_name)) k)
        warnings

/-- The per-hub metadata cached by HubMetadataService (business_keys and
source_tables as Python sets, embedded as lists up to membership). -/
structure HubMeta where
  business_keys : List String
  source_tables : List String
  deriving Repr, DecidableEq

/-- The per-link metadata cached by LinkSatelliteParser._cache_links_metadata. -/
structure LinkMeta where
  business_keys : List String
  related_hubs : List String
  source_tables : List String
  deriving Repr, DecidableEq

/-- Lookup in a Python dict built by a comprehension: the LAST binding of a
key wins, so we search the association list from the right. -/
def cacheFind {α : Type} (cache : List (String × α)) (name : String) : Option α :=
  (cache.reverse.find? (fun p => p.fst == name)).map (fun p => p.snd)

/-- HubMetadataService.cache_hubs_metadata: one cache entry per hub of the
declared input model, holding its declared business keys and source tables.
It reads only the model, never the hub build results. -/
def cacheHubsMetadata (m : Model) : List (String × HubMeta) :=
  m.hubs.map (fun h => (h.name, { business_keys := h.business_keys,
                                  source_tables := h.source_tables }))

/-- LinkSatelliteParser._cache_links_metadata: one entry per declared link. -/
def cacheLinksMetadata (m : Model) : List (String × LinkMeta) :=
  m.links.map (fun l => (l.name, { business_keys := l.business_keys,
                                   related_hubs := l.related_hubs,
                                   source_tables := l.source_tables }))

/-- LinkParser._validate_hub_keys: warn about hub keys missing from the
link, and warn when the link has no key of the hub at all. -/
def validateHubKeys (linkName hubName : String) (linkKeys hubKeys : List String) :
    List String :=
  let missing := hubKeys.filter (fun k => !(linkKeys.contains k))
  let w1 := if missing.isEmpty then []
    else ["Link " ++ linkName ++ " is missing business keys from hub " ++ hubName ++
          ": " ++ renderSorted missing]
  let related := linkKeys.filter (fun k => hubKeys.contains k)
  let w2 := if related.isEmpty then
      ["Link " ++ linkName ++ " has no business keys from hub " ++ hubName]
    else []
  w1 ++ w2

/-- The hub loop of LinkParser.validate: walk the related hubs, raising
DataVaultValidationError on an unknown hub, accumulating warnings and the
union of all hub business keys. -/
def linkValidateLoop (cache : List (String × HubMeta)) (linkName : String)
    (linkKeys : List String) :
    List String → List String → List String → Except DVError (List String × List String)
  | [], warnings, allKeys => Except.ok (warnings, allKeys)
  | hubName :: rest, warnings, allKeys =>
    match cacheFind cache hubName with
    | none => Except.error (DVError.validationError
        ("Link " ++ linkName ++ " references non-existent hub: " ++ hubName))
    | some meta =>
      linkValidateLoop cache linkName linkKeys rest
        (warnings ++ validateHubKeys linkName hubName linkKeys meta.business_keys)
        (allKeys ++ meta.business_keys)

/-- LinkParser.validate: run the hub loop, then raise
DataVaultValidationError if the link has business keys outside the union of
all related hub keys; otherwise return the accumulated warnings. -/
def linkValidate (cache : List (String × HubMeta)) (link : Link) :
    Except DVError (List String) :=
  match linkValidateLoop cache link.name link.business_keys link.related_hubs [] [] with
  | Except.error e => Except.error e
  | Except.ok (warnings, allKeys) =>
    let extra := link.business_keys.filter (fun k => !(allKeys.contains k))
    if extra.isEmpty then
      Except.ok warnings
    else
      Except.error (DVError.validationError
        ("Link " ++ link.name ++ " contains business keys that don\x27t belong to any related hub: " ++
         renderSorted extra))

/-- LinkParser._get_source_schema (same body as the hub version). -/
def linkGetSourceSchema (filtered : List CatalogRow) : Except DVError String :=
  match filtered with
  | [] => Except.error (DVError.valueError "Could not determine source schema from mapping data")
  | row :: _ => Except.ok row.schema_name

/-- HubMetadataService.get_hub_business_keys: raise on an unknown hub, else
intersect the link keys with the cached hub keys (a Python set; embedded in
link-key order after deduplication). -/
def getHubBusinessKeys (cache : List (String × HubMeta)) (hubName : String)
    (linkKeys : List String) : Except DVError (List String) :=
  match cacheFind cache hubName with
  | none => Except.error (DVError.validationError ("Unknown hub: " ++ hubName))
  | some meta => Except.ok ((linkKeys.eraseDups).filter (fun k => meta.business_keys.contains k))

/-- The hub hash-key columns of LinkParser._build_columns: one hash_key_hub
column per related hub, with parent set to the lowercased hub name and the
intersected keys (with resolved types) as composite source. -/
def linkHubColumns (cache : List (String × HubMeta)) (link : Link)
    (info : String → TypeInfo) :
    List String → Except DVError (List Column)
  | [] => Except.ok []
  | hubName :: rest =>
    match getHubBusinessKeys cache hubName link.business_keys with
    | Except.error e => Except.error e
    | Except.ok hubKeys =>
      match linkHubColumns cache link info rest with
      | Except.error e => Except.error e
      | Except.ok restCols =>
        Except.ok
          ({ target := "dv_hkey_" ++ pyLower hubName,
             dtype := "raw",
             key_type := some "hash_key_hub",
             parent := some (pyLower hubName),
             source := ColSource.composite (hubKeys.map (fun k => (k, (info k).data_type))) } ::
           restCols)

/-- LinkParser._build_columns: the link hash key followed by one hub hash
key per related hub. -/
def linkBuildColumns (cache : List (String × HubMeta)) (link : Link)
    (info : String → TypeInfo) : Except DVError (List Column) :=
  match linkHubColumns cache link info link.related_hubs with
  | Except.error e => Except.error e
  | Except.ok hubCols =>
    Except.ok
      ({ target := "dv_hkey_" ++ pyLower link.name,
         dtype := "raw",
         key_type := some "hash_key_lnk",
         source := ColSource.keys link.business_keys } :: hubCols)

/-- LinkParser._build_output_dict: source_table is the first source table
(not lowercased), target_table the link name unchanged, collision_code the
hard-coded string mdm. -/
def linkBuildOutputDict (cfg : ParserConfig) (link : Link) (schema : String)
    (warnings : List String) (columns : List Column) : Except DVError TargetDoc :=
  match link.source_tables with
  | [] => Except.error DVError.indexError
  | t :: _ =>
    Except.ok
      { source_schema := some schema,
        source_table := t,
        target_schema := cfg.target_schema,
        target_table := link.name,
        target_entity_type := "lnk",
        collision_code := some "mdm",
        description := some link.description,
        metadata := buildMetadata cfg warnings,
        columns := columns }

/-- LinkParser.parse: filter the mapping rows on the source tables, resolve
the source schema (ValueError on empty), validate against the hub cache,
look up datatypes on the filtered rows, build the columns and the output
dict. -/
def linkParse (cfg : ParserConfig) (cache : List (String × HubMeta)) (link : Link)
    (rows : List CatalogRow) : Except DVError TargetDoc :=
  match linkGetSourceSchema (rows.filter (fun r => link.source_tables.contains r.table_name)) with
  | Except.error e => Except.error e
  | Except.ok schema =>
    match linkValidate cache link with
    | Except.error e => Except.error e
    | Except.ok warnings =>
      match linkBuildColumns cache link
          (fun k => lookupOne cfg (rows.filter (fun r => link.source_tables.contains r.table_name)) k) with
      | Except.error e => Except.error e
      | Except.ok columns => linkBuildOutputDict cfg link schema warnings columns

/-- SatelliteParser.validate: an unimplemented stub — it returns no
warnings and performs no checks (its body is a placeholder comment
"Add validation logic here"). -/
def satValidate (_sat : Satellite) : List String := []

/-- SatelliteParser._get_source_schema: the SCHEMA_NAME of the first
catalog row of the source table, or None when the table is absent (this
variant does not raise). -/
def satGetSourceSchema (sat : Satellite) (rows : List CatalogRow) : Option String :=
  match rows.filter (fun r => r.table_name == sat.source_table) with
  | [] => none
  | row :: _ => some row.schema_name

/-- SatelliteParser._build_columns: the sourceless satellite hash key, the
parent hub hash key (source = the satellite business keys), the sourceless
hash_diff, then one key_type-less column per descriptive attribute. -/
def satBuildColumns (sat : Satellite) (info : String → TypeInfo) : List Column :=
  { target := "dv_hkey_" ++ pyLower sat.name,
    dtype := "raw",
    key_type := some "hash_key_sat",
    source := ColSource.nosource } ::
  { target := "dv_hkey_" ++ pyLower sat.hub,
    dtype := "raw",
    key_type := some "hash_key_hub",
    source := ColSource.keys sat.business_keys } ::
  { target := "dv_hsh_diff",
    dtype := "raw",
    key_type := some "hash_diff",
    source := ColSource.nosource } ::
  sat.descriptive_attrs.map (fun attr =>
    { target := attr,
      dtype := (info attr).data_type,
      source := ColSource.single attr (info attr).data_type })

/-- SatelliteParser._build_output_dict: no collision_code and no
description field; parent_table is the hub name. -/
def satBuildOutputDict (cfg : ParserConfig) (sat : Satellite)
    (schema : Option String) (info : String → TypeInfo) (warnings : List String) :
    TargetDoc :=
  { source_schema := schema,
    source_table := sat.source_table,
    target_schema := cfg.target_schema,
    target_table := sat.name,
    target_entity_type := "sat",
    parent_table := some sat.hub,
    metadata := buildMetadata cfg warnings,
    columns := satBuildColumns sat info }

/-- SatelliteParser.parse: resolve the (optional) source schema, look up
datatypes for business keys plus descriptive attributes over the FULL
mapping table, run the stub validation, build the output dict.  In the
typed embedding this function is total: nothing in it can raise. -/
def satParse (cfg : ParserConfig) (sat : Satellite) (rows : List CatalogRow) : TargetDoc :=
  let schema := satGetSourceSchema sat rows
  let info := fun k => satLookupOne cfg rows k
  let warnings := satValidate sat
  satBuildOutputDict cfg sat schema info warnings

/-- The missing-from-parent warning text of LinkSatelliteParser.validate. -/
def lsatMissingMsg (lsat : LinkSatellite) (missing : List String) : String :=
  "Link satellite " ++ lsat.name ++ " is missing business keys from parent link " ++
    lsat.link ++ ": " ++ renderSorted missing

/-- The extra-beyond-parent warning text of LinkSatelliteParser.validate. -/
def lsatExtraMsg (lsat : LinkSatellite) (extra : List String) : String :=
  "Link satellite " ++ lsat.name ++ " contains extra business keys not in parent link " ++
    lsat.link ++ ": " ++ renderSorted extra

/-- LinkSatelliteParser.validate: raise ValueError when the parent link is
not in the cached links metadata; otherwise emit the missing-keys warning
when the parent has keys the entity lacks, followed by the extra-keys
warning when the entity has keys beyond the parent. -/
def lsatValidate (cache : List (String × LinkMeta)) (lsat : LinkSatellite) :
    Except DVError (List String) :=
  match cacheFind cache lsat.link with
  | none => Except.error (DVError.valueError
      ("Link satellite references non-existent link: " ++ lsat.link))
  | some meta =>
    let missing := meta.business_keys.filter (fun k => !(lsat.business_keys.contains k))
    let w1 := if missing.isEmpty then [] else [lsatMissingMsg lsat missing]
    let extra := lsat.business_keys.filter (fun k => !(meta.business_keys.contains k))
    let w2 := if extra.isEmpty then [] else [lsatExtraMsg lsat extra]
    Except.ok (w1 ++ w2)

/-- LinkSatelliteParser._get_source_schema: unlike the satellite variant
this raises ValueError when the source table is absent from the catalog. -/
def lsatGetSourceSchema (lsat : LinkSatellite) (rows : List CatalogRow) :
    Except DVError String :=
  match rows.filter (fun r => r.table_name == lsat.source_table) with
  | [] => Except.error (DVError.valueError
      ("Could not find source table " ++ lsat.source_table ++ " in mapping data"))
  | row :: _ => Except.ok row.schema_name

/-- LinkSatelliteParser._build_columns: lsat hash key, link hash key
(source = the lsat business keys), hash_diff, then the descriptive
columns. -/
def lsatBuildColumns (lsat : LinkSatellite) (info : String → TypeInfo) : List Column :=
  { target := "dv_hkey_" ++ pyLower lsat.name,
    dtype := "raw",
    key_type := some "hash_key_lsat",
    source := ColSource.nosource } ::
  { target := "dv_hkey_" ++ pyLower lsat.link,
    dtype := "raw",
    key_type := some "hash_key_lnk",
    source := ColSource.keys lsat.business_keys } ::
  { target := "dv_hsh_diff",
    dtype := "raw",
    key_type := some "hash_diff",
    source := ColSource.nosource } ::
  lsat.descriptive_attrs.map (fun attr =>
    { target := attr,
      dtype := (info attr).data_type,
      source := ColSource.single attr (info attr).data_type })

/-- LinkSatelliteParser._build_output_dict: parent_table is the link name;
no collision_code, no description. -/
def lsatBuildOutputDict (cfg : ParserConfig) (lsat : LinkSatellite) (schema : String)
    (info : String → TypeInfo) (warnings : List String) : TargetDoc :=
  { source_schema := some schema,
    source_table := lsat.source_table,
    target_schema := cfg.target_schema,
    target_table := lsat.name,
    target_entity_type := "lsat",
    parent_table := some lsat.link,
    metadata := buildMetadata cfg warnings,
    columns := lsatBuildColumns lsat info }

/-- LinkSatelliteParser.parse: source schema first (ValueError when the
source table is unknown), then datatypes over the full mapping table, then
validation against the link cache, then the output dict. -/
def lsatParse (cfg : ParserConfig) (cache : List (String × LinkMeta))
    (lsat : LinkSatellite) (rows : List CatalogRow) : Except DVError TargetDoc :=
  match lsatGetSourceSchema lsat rows with
  | Except.error e => Except.error e
  | Except.ok schema =>
    match lsatValidate cache lsat with
    | Except.error e => Except.error e
    | Except.ok warnings =>
      Except.ok (lsatBuildOutputDict cfg lsat schema (fun k => satLookupOne cfg rows k) warnings)

/-- One per-entity outcome recorded by the orchestrator loops: the entity
name, a status (the validation_status of the document, or "error"), and
either the warnings of the document or the message of the caught
exception. -/
structure Outcome where
  name : String
  status : String
  warnings : Option (List String) := none
  err : Option String := none
  deriving Repr, DecidableEq

/-- The success/except branches shared by the four _process_* loops of
DataProcessor, specialized to a parse result. -/
def outcomeOf (name : String) (res : Except DVError TargetDoc) : Outcome :=
  match res with
  | Except.ok doc =>
    { name := name,
      status := doc.metadata.validation_status,
      warnings := doc.metadata.validation_warnings }
  | Except.error e =>
    { name := name,
      status := "error",
      err := some (errMsg e) }

/-- The loop body of DataProcessor._process_hubs for a single hub. -/
def hubOutcome (cfg : ParserConfig) (rows : List CatalogRow) (hub : Hub) : Outcome :=
  outcomeOf hub.name (hubParse cfg hub rows)

/-- DataProcessor._process_hubs: each hub is parsed inside its own
try/except, so one failure never stops the loop — embedded as a map. -/
def processHubs (cfg : ParserConfig) (m : Model) (rows : List CatalogRow) : List Outcome :=
  m.hubs.map (hubOutcome cfg rows)

/-- The loop body of DataProcessor._process_links for a single link. -/
def linkOutcome (cfg : ParserConfig) (cache : List (String × HubMeta))
    (rows : List CatalogRow) (link : Link) : Outcome :=
  outcomeOf link.name (linkParse cfg cache link rows)

/-- DataProcessor._process_links: first cache_hubs_metadata over the whole
declared input model, then parse each link under its own try/except. -/
def processLinks (cfg : ParserConfig) (m : Model) (rows : List CatalogRow) : List Outcome :=
  let cache := cacheHubsMetadata m
  m.links.map (linkOutcome cfg cache rows)

/-- The loop body of DataProcessor._process_satellites; satParse is total,
so the except branch of the Python loop is unreachable in the embedding. -/
def satOutcome (cfg : ParserConfig) (rows : List CatalogRow) (sat : Satellite) : Outcome :=
  outcomeOf sat.name (Except.ok (satParse cfg sat rows))

/-- DataProcessor._process_satellites. -/
def processSatellites (cfg : ParserConfig) (m : Model) (rows : List CatalogRow) :
    List Outcome :=
  m.satellites.map (satOutcome cfg rows)

/-- The loop body of DataProcessor._process_link_satellites. -/
def lsatOutcome (cfg : ParserConfig) (cache : List (String × LinkMeta))
    (rows : List CatalogRow) (lsat : LinkSatellite) : Outcome :=
  outcomeOf lsat.name (lsatParse cfg cache lsat rows)

/-- DataProcessor._process_link_satellites: first _cache_links_metadata
from the declared links, then parse each link satellite under its own
try/except. -/
def processLinkSatellites (cfg : ParserConfig) (m : Model) (rows : List CatalogRow) :
    List Outcome :=
  let cache := cacheLinksMetadata m
  m.link_satellites.map (lsatOutcome cfg cache rows)

/-- The per-entity-type result lists assembled by DataProcessor.process_data. -/
structure RunResults where
  hubs : List Outcome
  links : List Outcome
  satellites : List Outcome
  link_satellites : List Outcome
  deriving Repr, DecidableEq

/-- DataProcessor.process_data: the four phases in order (hubs, links,
satellites, link satellites). -/
def processData (cfg : ParserConfig) (m : Model) (rows : List CatalogRow) : RunResults :=
  { hubs := processHubs cfg m rows,
    links := processLinks cfg m rows,
    satellites := processSatellites cfg m rows,
    link_satellites := processLinkSatellites cfg m rows }

/-- The counts of a processing summary (DataProcessor._save_summaries). -/
structure Summary where
  total : Nat
  successful : Nat
  warnings : Nat
  errors : Nat
  deriving Repr, DecidableEq

/-- DataProcessor._save_summaries for one entity type: total is the length
of the result list, successful counts outcomes whose status is not
"error", warnings counts status == "warnings", errors counts
status == "error". -/
def summaryOf (results : List Outcome) : Summary :=
  { total := results.length,
    successful := results.countP (fun r => r.status != "error"),
    warnings := results.countP (fun r => r.status == "warnings"),
    errors := results.countP (fun r => r.status == "error") }

/-! Concrete fixtures used by counterexamples and witnesses.  They mirror
the scenarios of the repository and its test fixtures. -/

/-- Default configuration (all dataclass defaults of configs/settings.py). -/
def sampleCfg : ParserConfig := { version := "1.0.0" }

/-- A small source column catalog. -/
def sampleRows : List CatalogRow :=
  [{ schema_name := "SRC", table_name := "ORDERS", column_name := "ORDER_ID",
     data_type := "NUMBER", length := "-" },
   { schema_name := "SRC", table_name := "CUSTOMERS", column_name := "CUSTOMER_ID",
     data_type := "VARCHAR2", length := "50" },
   { schema_name := "SRC", table_name := "CUSTOMERS", column_name := "CUST_NAME",
     data_type := "VARCHAR2", length := "nan" }]

/-- A hub over the CUSTOMERS table. -/
def hubCustomer : Hub :=
  { name := "HUB_CUSTOMER", business_keys := ["CUSTOMER_ID"], source_tables := ["CUSTOMERS"] }

/-- A hub over the ORDERS table. -/
def hubOrder : Hub :=
  { name := "HUB_ORDER", business_keys := ["ORDER_ID"], source_tables := ["ORDERS"] }

/-- Helper: the unresolved-length fixture row (LENGTH is the pandas
stringification of a missing value). -/
def nanRow : CatalogRow :=
  { schema_name := "SRC", table_name := "CUSTOMERS", column_name := "CUST_NAME",
    data_type := "VARCHAR2", length := "nan" }

/-- C6 counterexample: a bounded-string catalog entry whose LENGTH field is
the placeholder "nan" is NOT resolved with the configured default length:
both DataTypeService variants format the literal string, producing
VARCHAR2(nan) instead of VARCHAR2(255). -/
theorem C6_counterexample :
    (processColumnType sampleCfg nanRow).data_type = "VARCHAR2(nan)" ∧
    (satProcessColumnType sampleCfg nanRow).data_type = "VARCHAR2(nan)" ∧
    "VARCHAR2(nan)" ≠ "VARCHAR2(" ++ toString sampleCfg.default_varchar_length ++ ")" := by
  refine ⟨by decide, by decide, by decide⟩

/-- C6 as amended: for a catalog entry of declared type VARCHAR2 whose
LENGTH strips to "-" or to the empty string, both DataTypeService variants
resolve the type with the configured default length; the placeholder "nan"
is excluded (see the counterexample). -/
theorem C6_amended (cfg : ParserConfig) (row : CatalogRow)
    (hdt : row.data_type = "VARCHAR2")
    (hlen : pyStrip row.length = "-" ∨ pyStrip row.length = "") :
    (processColumnType cfg row).data_type =
      "VARCHAR2(" ++ toString cfg.default_varchar_length ++ ")" ∧
    (satProcessColumnType cfg row).data_type =
      "VARCHAR2(" ++ toString cfg.default_varchar_length ++ ")" := by
  rcases hlen with h | h <;>
    simp [processColumnType, satProcessColumnType, processVarchar, satProcessVarchar, hdt, h]

/-- C6 amended witness: the ORDER_ID fixture row has LENGTH "-" and its
NUMBER sibling is irrelevant; a VARCHAR2 row with LENGTH "-" resolves to
the default length in both variants. -/
theorem C6_amended_witness :
    (processColumnType sampleCfg
      { schema_name := "SRC", table_name := "T", column_name := "C",
        data_type := "VARCHAR2", length := "-" }).data_type = "VARCHAR2(255)" ∧
    (satProcessColumnType sampleCfg
      { schema_name := "SRC", table_name := "T", column_name := "C",
        data_type := "VARCHAR2", length := "-" }).data_type = "VARCHAR2(255)" :=
  C6_amended sampleCfg
    { schema_name := "SRC", table_name := "T", column_name := "C",
      data_type := "VARCHAR2", length := "-" } rfl (Or.inl (by decide))

/-- C7: type resolution is total (lookupOne is a Lean function) and
satisfies the claimed postconditions: an absent column yields the default
bounded-string type with the recorded not-found warning; a VARCHAR2 column
with catalog length "50" resolves to VARCHAR2(50); with length "-" or
empty it resolves to the configured default length. -/
theorem C7_lookup (cfg : ParserConfig) (rows : List CatalogRow) (col : String) :
    ((rows.filter (fun r => r.column_name == col)).isEmpty = true →
      lookupOne cfg rows col = getDefaultType cfg col ∧
      (lookupOne cfg rows col).data_type =
        "VARCHAR2(" ++ toString cfg.default_varchar_length ++ ")" ∧
      (lookupOne cfg rows col).err =
        some ("Column " ++ col ++ " not found in mapping data")) ∧
    (∀ row, (rows.filter (fun r => r.column_name == col)).head? = some row →
      row.data_type = "VARCHAR2" →
      (pyStrip row.length = "50" → (lookupOne cfg rows col).data_type = "VARCHAR2(50)") ∧
      (pyStrip row.length = "-" ∨ pyStrip row.length = "" →
        (lookupOne cfg rows col).data_type =
          "VARCHAR2(" ++ toString cfg.default_varchar_length ++ ")")) := by
  constructor
  · intro hempty
    have hnil : rows.filter (fun r => r.column_name == col) = [] :=
      List.isEmpty_iff.mp hempty
    refine ⟨?_, ?_, ?_⟩ <;> simp [lookupOne, hnil, getDefaultType]
  · intro row hhead hdt
    constructor
    · intro h50
      simp [lookupOne, hhead, processColumnType, hdt, h50, processVarchar]
    · intro hph
      rcases hph with h | h <;>
        simp [lookupOne, hhead, processColumnType, hdt, h, processVarchar]

/-- C7 witness: at the sample catalog, looking up an absent column yields
the default record, and looking up CUSTOMER_ID (VARCHAR2, length "50")
yields VARCHAR2(50). -/
theorem C7_lookup_witness :
    lookupOne sampleCfg sampleRows "ABSENT_COL" = getDefaultType sampleCfg "ABSENT_COL" ∧
    (lookupOne sampleCfg sampleRows "CUSTOMER_ID").data_type = "VARCHAR2(50)" :=
  ⟨((C7_lookup sampleCfg sampleRows "ABSENT_COL").1 (by decide)).1,
   ((C7_lookup sampleCfg sampleRows "CUSTOMER_ID").2
      { schema_name := "SRC", table_name := "CUSTOMERS", column_name := "CUSTOMER_ID",
        data_type := "VARCHAR2", length := "50" } (by decide) rfl).1 (by decide)⟩

/-- A valid link fixture relating the two sample hubs (Scenario B). -/
def lnkFix : Link :=
  { name := "LNK_ORDER_CUSTOMER", related_hubs := ["HUB_ORDER", "HUB_CUSTOMER"],
    business_keys := ["ORDER_ID", "CUSTOMER_ID"], source_tables := ["ORDERS"] }

/-- C3 counterexample: two hubs built with the SAME configuration but
different names receive different collision codes (the hub builder derives
collision_code from the hub name, not from configuration). -/
theorem C3_counterexample :
    (hubParse sampleCfg hubCustomer sampleRows).map (fun d => d.collision_code) =
      Except.ok (some "CUSTOMER") ∧
    (hubParse sampleCfg hubOrder sampleRows).map (fun d => d.collision_code) =
      Except.ok (some "ORDER") ∧
    (some "CUSTOMER" : Option String) ≠ some "ORDER" :=
  ⟨by decide, by decide, by decide⟩

/-- C3 as amended: the LINK builder sets collision_code to the constant
"mdm" (independent of the link name), while the HUB builder derives
collision_code from the hub name: it is the second underscore-separated
segment of the name, so hubs with different names can get different
collision codes. -/
theorem C3_amended :
    (∀ (cfg : ParserConfig) (link : Link) (schema : String) (warnings : List String)
        (columns : List Column), link.source_tables ≠ [] →
      (linkBuildOutputDict cfg link schema warnings columns).map (fun d => d.collision_code) =
        Except.ok (some "mdm")) ∧
    (∀ (cfg : ParserConfig) (hub : Hub) (schema : String) (info : String → TypeInfo)
        (warnings : List String) (c : String), hub.source_tables ≠ [] →
      (pySplitUnderscore hub.name).get? 1 = some c →
      (hubBuildOutputDict cfg hub schema info warnings).map (fun d => d.collision_code) =
        Except.ok (some c)) := by
  constructor
  · intro cfg link schema warnings columns hne
    rcases hst : link.source_tables with _ | ⟨t, ts⟩
    · exact absurd hst hne
    · simp [linkBuildOutputDict, hst, Except.map]
  · intro cfg hub schema info warnings c hne hc
    rcases hst : hub.source_tables with _ | ⟨t, ts⟩
    · exact absurd hst hne
    · simp only [hubBuildOutputDict, hst]
      rw [hc]
      simp [Except.map]

/-- C3 amended witness: at the concrete fixtures the link document gets
collision_code "mdm" and the hub document gets the second segment of its
name. -/
theorem C3_amended_witness :
    (linkBuildOutputDict sampleCfg lnkFix "SRC" [] []).map (fun d => d.collision_code) =
      Except.ok (some "mdm") ∧
    (hubBuildOutputDict sampleCfg hubCustomer "SRC"
        (fun k => lookupOne sampleCfg sampleRows k) []).map (fun d => d.collision_code) =
      Except.ok (some "CUSTOMER") :=
  ⟨C3_amended.1 sampleCfg lnkFix "SRC" [] [] (by decide),
   C3_amended.2 sampleCfg hubCustomer "SRC" (fun k => lookupOne sampleCfg sampleRows k) []
     "CUSTOMER" (by decide) (by decide)⟩

/-- C4 counterexample: in the hub document built for HUB_CUSTOMER the
target table and the hash-key column are LOWERcased ("hub_customer",
"dv_hkey_hub_customer"), so the target names are not upper-cased and the
hash-key target is not DV_HKEY_ followed by the hub name. -/
theorem C4_counterexample :
    (hubParse sampleCfg hubCustomer sampleRows).map
        (fun d => (d.target_table, d.columns.map (fun c => c.target))) =
      Except.ok ("hub_customer", ["dv_hkey_hub_customer", "CUS_CUSTOMER_ID"]) ∧
    "dv_hkey_hub_customer" ≠ "DV_HKEY_" ++ hubCustomer.name ∧
    "hub_customer" ≠ pyUpper "hub_customer" :=
  ⟨by decide, by decide, by decide⟩

/-- C4 as amended: in every successfully built hub document the target
table is the LOWERcased hub name, the hash-key column target is dv_hkey_
followed by the lowercased hub name, and each business key k yields a
column named CUS_ followed by k (the key name itself unchanged). -/
theorem C4_amended (cfg : ParserConfig) (hub : Hub) (rows : List CatalogRow)
    (doc : TargetDoc) (h : hubParse cfg hub rows = Except.ok doc) :
    doc.target_table = pyLower hub.name ∧
    doc.columns.map (fun c => c.target) =
      ("dv_hkey_" ++ pyLower hub.name) :: hub.business_keys.map (fun k => "CUS_" ++ k) := by
  unfold hubParse at h
  cases hv : hubValidate hub with
  | error e => rw [hv] at h; simp [Bind.bind, Except.bind] at h
  | ok warnings =>
    rw [hv] at h
    simp only [Bind.bind, Except.bind] at h
    cases hs : hubGetSourceSchema (rows.filter (fun r => hub.source_tables.contains r.table_name)) with
    | error e => rw [hs] at h; simp at h
    | ok schema =>
      rw [hs] at h
      unfold hubBuildOutputDict at h
      rcases hst : hub.source_tables with _ | ⟨t, ts⟩
      · rw [hst] at h; simp at h
      · rw [hst] at h
        cases hc : (pySplitUnderscore hub.name).get? 1 with
        | none => rw [hc] at h; simp at h
        | some c =>
          rw [hc] at h
          injection h with h2
          subst h2
          refine ⟨rfl, ?_⟩
          simp [hubBuildColumns]

/-- C4 amended witness: the concrete hub document for HUB_CUSTOMER. -/
def hubCustomerDoc : TargetDoc :=
  { source_schema := some "SRC", source_table := "customers",
    target_schema := "integration", target_table := "hub_customer",
    target_entity_type := "hub", collision_code := some "CUSTOMER",
    description := some "",
    metadata := { version := "1.0.0", validation_status := "valid",
                  validation_warnings := none },
    columns :=
      [{ target := "dv_hkey_hub_customer", dtype := "raw",
         key_type := some "hash_key_hub", source := ColSource.keys ["CUSTOMER_ID"] },
       { target := "CUS_CUSTOMER_ID", dtype := "VARCHAR2(50)",
         key_type := some "biz_key",
         source := ColSource.single "CUSTOMER_ID" "VARCHAR2(50)" }] }

/-- C4 amended witness: instantiating the amended claim on the sample
hub shows the lowercased naming concretely. -/
theorem C4_amended_witness :
    hubCustomerDoc.target_table = pyLower hubCustomer.name ∧
    hubCustomerDoc.columns.map (fun c => c.target) =
      ("dv_hkey_" ++ pyLower hubCustomer.name) ::
        hubCustomer.business_keys.map (fun k => "CUS_" ++ k) :=
  C4_amended sampleCfg hubCustomer sampleRows hubCustomerDoc (by decide)

/-- The union of the cached business keys of a list of hub names (absent
hubs contribute nothing); used to state the extra-keys condition of
LinkParser.validate. -/
def cachedUnionKeys (cache : List (String × HubMeta)) (hubNames : List String) : List String :=
  hubNames.flatMap (fun hn =>
    match cacheFind cache hn with
    | none => []
    | some meta => meta.business_keys)

/-- When every related hub is in the cache, the hub loop of
LinkParser.validate succeeds and accumulates exactly the union of the
cached hub business keys. -/
theorem linkValidateLoop_union (cache : List (String × HubMeta)) (n : String)
    (keys : List String) (hubs : List String) :
    ∀ (ws acc : List String),
      (∀ hn ∈ hubs, (cacheFind cache hn).isSome = true) →
      ∃ ws2, linkValidateLoop cache n keys hubs ws acc =
        Except.ok (ws2, acc ++ cachedUnionKeys cache hubs) := by
  induction hubs with
  | nil =>
    intro ws acc _
    exact ⟨ws, by simp [linkValidateLoop, cachedUnionKeys]⟩
  | cons hn rest ih =>
    intro ws acc h
    have hsome : (cacheFind cache hn).isSome = true := h hn (List.mem_cons_self _ _)
    obtain ⟨meta, hmeta⟩ := Option.isSome_iff_exists.mp hsome
    have hrest : ∀ x ∈ rest, (cacheFind cache x).isSome = true :=
      fun x hx => h x (List.mem_cons_of_mem _ hx)
    obtain ⟨ws2, hws2⟩ :=
      ih (ws ++ validateHubKeys n hn keys meta.business_keys) (acc ++ meta.business_keys) hrest
    refine ⟨ws2, ?_⟩
    simp only [linkValidateLoop, hmeta]
    rw [hws2]
    simp [cachedUnionKeys, hmeta, List.append_assoc]

/-- C1: a link whose business keys contain a key outside the union of the
cached business keys of all its related hubs is fatal: LinkParser.validate
raises DataVaultValidationError, LinkParser.parse produces no document, and
the orchestrator records an error outcome for that link while mapping the
remaining links of the phase unchanged. -/
theorem C1_extra_keys_fatal (cfg : ParserConfig) (m : Model) (rows : List CatalogRow)
    (l : Link) (pre post : List Link) (hsplit : m.links = pre ++ l :: post)
    (k : String) (hk : k ∈ l.business_keys)
    (hhubs : ∀ hn ∈ l.related_hubs, (cacheFind (cacheHubsMetadata m) hn).isSome = true)
    (hout : k ∉ cachedUnionKeys (cacheHubsMetadata m) l.related_hubs) :
    (∃ msg, linkValidate (cacheHubsMetadata m) l =
      Except.error (DVError.validationError msg)) ∧
    (∃ e, linkParse cfg (cacheHubsMetadata m) l rows = Except.error e) ∧
    (∃ e, processLinks cfg m rows =
      pre.map (linkOutcome cfg (cacheHubsMetadata m) rows) ++
      ({ name := l.name, status := "error", warnings := none, err := some (errMsg e) } ::
       post.map (linkOutcome cfg (cacheHubsMetadata m) rows))) := by
  obtain ⟨ws2, hloop⟩ :=
    linkValidateLoop_union (cacheHubsMetadata m) l.name l.business_keys l.related_hubs [] [] hhubs
  have hkextra : k ∈ l.business_keys.filter
      (fun x => !((cachedUnionKeys (cacheHubsMetadata m) l.related_hubs).contains x)) := by
    apply List.mem_filter.mpr
    refine ⟨hk, by simpa using hout⟩
  have hempty : (l.business_keys.filter
      (fun x => !((cachedUnionKeys (cacheHubsMetadata m) l.related_hubs).contains x))).isEmpty
      = false := by
    simpa [List.isEmpty_iff] using List.ne_nil_of_mem hkextra
  have hval : ∃ msg, linkValidate (cacheHubsMetadata m) l =
      Except.error (DVError.validationError msg) := by
    refine ⟨"Link " ++ l.name ++
      " contains business keys that don\x27t belong to any related hub: " ++
      renderSorted (l.business_keys.filter
        (fun x => !((cachedUnionKeys (cacheHubsMetadata m) l.related_hubs).contains x))), ?_⟩
    unfold linkValidate
    rw [hloop]
    simp [List.nil_append, hempty]
    exact ⟨k, hk, hout⟩
  have hparse : ∃ e, linkParse cfg (cacheHubsMetadata m) l rows = Except.error e := by
    obtain ⟨msg, hmsg⟩ := hval
    cases hss : linkGetSourceSchema
        (rows.filter (fun r => l.source_tables.contains r.table_name)) with
    | error e => exact ⟨e, by unfold linkParse; rw [hss]⟩
    | ok schema =>
      exact ⟨DVError.validationError msg, by unfold linkParse; rw [hss, hmsg]⟩
  refine ⟨hval, hparse, ?_⟩
  obtain ⟨e, he⟩ := hparse
  refine ⟨e, ?_⟩
  simp only [processLinks, hsplit, List.map_append, List.map_cons]
  congr 1
  simp [linkOutcome, outcomeOf, he]

/-- Scenario C link: same related hubs, but business_keys contain
EXTRA_COL, which belongs to no related hub. -/
def lnkExtra : Link :=
  { name := "LNK_ORDER_CUSTOMER", related_hubs := ["HUB_ORDER", "HUB_CUSTOMER"],
    business_keys := ["ORDER_ID", "CUSTOMER_ID", "EXTRA_COL"], source_tables := ["ORDERS"] }

/-- Scenario C model: both hubs plus the link with the extra key. -/
def mC1 : Model := { hubs := [hubOrder, hubCustomer], links := [lnkExtra] }

/-- C1 witness: instantiating the fatal-extra-keys theorem on Scenario C. -/
theorem C1_extra_keys_fatal_witness :
    (∃ msg, linkValidate (cacheHubsMetadata mC1) lnkExtra =
      Except.error (DVError.validationError msg)) ∧
    (∃ e, linkParse sampleCfg (cacheHubsMetadata mC1) lnkExtra sampleRows = Except.error e) ∧
    (∃ e, processLinks sampleCfg mC1 sampleRows =
      ([] : List Link).map (linkOutcome sampleCfg (cacheHubsMetadata mC1) sampleRows) ++
      ({ name := lnkExtra.name, status := "error", warnings := none, err := some (errMsg e) } ::
       ([] : List Link).map (linkOutcome sampleCfg (cacheHubsMetadata mC1) sampleRows))) :=
  C1_extra_keys_fatal sampleCfg mC1 sampleRows lnkExtra [] [] rfl "EXTRA_COL"
    (by decide) (by decide) (by decide)

/-- Helper for C8: within one outcome list, the outcomes counted as
successful (status not "error") and as errors partition the list. -/
theorem countP_status_partition (l : List Outcome) :
    l.countP (fun r => r.status != "error") + l.countP (fun r => r.status == "error") =
      l.length := by
  induction l with
  | nil => rfl
  | cons x xs ih =>
    simp only [bne] at ih ⊢
    simp only [List.countP_cons, List.length_cons]
    cases hx : (x.status == "error") with
    | true => simp [hx]; omega
    | false => simp [hx]; omega

/-- C8: for every model and every phase, an exception while building one
entity is caught at the per-entity boundary: the orchestrator records an
error outcome carrying the entity name and message and maps the remaining
entities of the phase unchanged (for satellites, whose embedded build is
total, the phase is the per-entity map outright); every phase processes
exactly its declared entities; and for any outcome list the summary
satisfies total = number processed, errors / warnings / successful = the
respective outcome counts, with successful + errors = total. -/
theorem C8_entity_boundary_and_summary (cfg : ParserConfig) (rows : List CatalogRow)
    (m : Model) :
    (∀ (h : Hub) (pre post : List Hub), m.hubs = pre ++ h :: post →
      ∀ e, hubParse cfg h rows = Except.error e →
      processHubs cfg m rows =
        pre.map (hubOutcome cfg rows) ++
        ({ name := h.name, status := "error", warnings := none, err := some (errMsg e) } ::
         post.map (hubOutcome cfg rows))) ∧
    (∀ (l : Link) (pre post : List Link), m.links = pre ++ l :: post →
      ∀ e, linkParse cfg (cacheHubsMetadata m) l rows = Except.error e →
      processLinks cfg m rows =
        pre.map (linkOutcome cfg (cacheHubsMetadata m) rows) ++
        ({ name := l.name, status := "error", warnings := none, err := some (errMsg e) } ::
         post.map (linkOutcome cfg (cacheHubsMetadata m) rows))) ∧
    (∀ (sat : Satellite) (pre post : List Satellite), m.satellites = pre ++ sat :: post →
      processSatellites cfg m rows =
        pre.map (satOutcome cfg rows) ++
        (satOutcome cfg rows sat :: post.map (satOutcome cfg rows))) ∧
    (∀ (ls : LinkSatellite) (pre post : List LinkSatellite),
      m.link_satellites = pre ++ ls :: post →
      ∀ e, lsatParse cfg (cacheLinksMetadata m) ls rows = Except.error e →
      processLinkSatellites cfg m rows =
        pre.map (lsatOutcome cfg (cacheLinksMetadata m) rows) ++
        ({ name := ls.name, status := "error", warnings := none, err := some (errMsg e) } ::
         post.map (lsatOutcome cfg (cacheLinksMetadata m) rows))) ∧
    (processHubs cfg m rows).length = m.hubs.length ∧
    (processLinks cfg m rows).length = m.links.length ∧
    (processSatellites cfg m rows).length = m.satellites.length ∧
    (processLinkSatellites cfg m rows).length = m.link_satellites.length ∧
    (∀ results : List Outcome,
      (summaryOf results).total = results.length ∧
      (summaryOf results).errors =
        (results.filter (fun r => r.status == "error")).length ∧
      (summaryOf results).warnings =
        (results.filter (fun r => r.status == "warnings")).length ∧
      (summaryOf results).successful =
        (results.filter (fun r => r.status != "error")).length ∧
      (summaryOf results).successful + (summaryOf results).errors =
        (summaryOf results).total) := by
  refine ⟨?_, ?_, ?_, ?_, ?_, ?_, ?_, ?_, ?_⟩
  · intro h pre post hsplit e he
    simp [processHubs, hsplit, hubOutcome, outcomeOf, he]
  · intro l pre post hsplit e he
    simp [processLinks, hsplit, linkOutcome, outcomeOf, he]
  · intro sat pre post hsplit
    simp [processSatellites, hsplit]
  · intro ls pre post hsplit e he
    simp [processLinkSatellites, hsplit, lsatOutcome, outcomeOf, he]
  · simp [processHubs]
  · simp [processLinks]
  · simp [processSatellites]
  · simp [processLinkSatellites]
  · intro results
    refine ⟨rfl, ?_, ?_, ?_, ?_⟩
    · simp [summaryOf, List.countP_eq_length_filter]
    · simp [summaryOf, List.countP_eq_length_filter]
    · simp [summaryOf, List.countP_eq_length_filter]
    · simp only [summaryOf]
      exact countP_status_partition results

/-- A hub whose single source table appears in no catalog row: its build
fails with the ValueError of _get_source_schema. -/
def hubGhostSrc : Hub :=
  { name := "HUB_GHOST", business_keys := ["G_ID"], source_tables := ["NO_SUCH_TABLE"] }

/-- Model with one failing hub followed by one succeeding hub. -/
def mC8 : Model := { hubs := [hubGhostSrc, hubCustomer] }

/-- A link whose single source table appears in no catalog row: its build
fails with the ValueError of _get_source_schema. -/
def lnkNoSrc : Link :=
  { name := "LNK_NOSRC", related_hubs := ["HUB_CUSTOMER"],
    business_keys := ["CUSTOMER_ID"], source_tables := ["NO_SUCH_TABLE"] }

/-- A plain satellite over the CUSTOMERS table. -/
def satPlain : Satellite :=
  { name := "SAT_PLAIN", hub := "HUB_CUSTOMER", business_keys := ["CUSTOMER_ID"],
    source_table := "CUSTOMERS", descriptive_attrs := [] }

/-- A link satellite naming a link that is not declared: its build fails
with the ValueError of LinkSatelliteParser.validate. -/
def lsatNoLink : LinkSatellite :=
  { name := "LSAT_NOLINK", link := "LNK_GONE", business_keys := ["CUSTOMER_ID"],
    source_table := "CUSTOMERS", descriptive_attrs := [] }

/-- A well-parented link satellite processed after the failing one. -/
def lsatFine : LinkSatellite :=
  { name := "LSAT_FINE", link := "LNK_NOSRC", business_keys := ["CUSTOMER_ID"],
    source_table := "CUSTOMERS", descriptive_attrs := [] }

/-- Model exercising all four phases, with a failing entity followed by a
succeeding one in the hub, link, and link-satellite phases. -/
def mC8all : Model :=
  { hubs := [hubGhostSrc, hubCustomer], links := [lnkNoSrc, lnkFix],
    satellites := [satPlain], link_satellites := [lsatNoLink, lsatFine] }

/-- C8 witness: in a model whose hub, link, and link-satellite phases each
start with a failing entity, every phase records the error outcome and
still processes the following entity, and the hub-phase summary counts add
up. -/
theorem C8_entity_boundary_and_summary_witness :
    processHubs sampleCfg mC8all sampleRows =
      ([] : List Hub).map (hubOutcome sampleCfg sampleRows) ++
      ({ name := hubGhostSrc.name, status := "error", warnings := none,
         err := some (errMsg (DVError.valueError
           "Could not determine source schema from mapping data")) } ::
       [hubCustomer].map (hubOutcome sampleCfg sampleRows)) ∧
    processLinks sampleCfg mC8all sampleRows =
      ([] : List Link).map (linkOutcome sampleCfg (cacheHubsMetadata mC8all) sampleRows) ++
      ({ name := lnkNoSrc.name, status := "error", warnings := none,
         err := some (errMsg (DVError.valueError
           "Could not determine source schema from mapping data")) } ::
       [lnkFix].map (linkOutcome sampleCfg (cacheHubsMetadata mC8all) sampleRows)) ∧
    processSatellites sampleCfg mC8all sampleRows =
      ([] : List Satellite).map (satOutcome sampleCfg sampleRows) ++
      (satOutcome sampleCfg sampleRows satPlain ::
       ([] : List Satellite).map (satOutcome sampleCfg sampleRows)) ∧
    processLinkSatellites sampleCfg mC8all sampleRows =
      ([] : List LinkSatellite).map
        (lsatOutcome sampleCfg (cacheLinksMetadata mC8all) sampleRows) ++
      ({ name := lsatNoLink.name, status := "error", warnings := none,
         err := some (errMsg (DVError.valueError
           "Link satellite references non-existent link: LNK_GONE")) } ::
       [lsatFine].map (lsatOutcome sampleCfg (cacheLinksMetadata mC8all) sampleRows)) ∧
    (summaryOf (processHubs sampleCfg mC8all sampleRows)).total =
      (processHubs sampleCfg mC8all sampleRows).length ∧
    (summaryOf (processHubs sampleCfg mC8all sampleRows)).successful +
      (summaryOf (processHubs sampleCfg mC8all sampleRows)).errors =
      (summaryOf (processHubs sampleCfg mC8all sampleRows)).total := by
  obtain ⟨hH, hL, hS, hLS, _, _, _, _, hsum⟩ :=
    C8_entity_boundary_and_summary sampleCfg sampleRows mC8all
  exact ⟨hH hubGhostSrc [] [hubCustomer] rfl
           (DVError.valueError "Could not determine source schema from mapping data")
           (by decide),
         hL lnkNoSrc [] [lnkFix] rfl
           (DVError.valueError "Could not determine source schema from mapping data")
           (by decide),
         hS satPlain [] [] rfl,
         hLS lsatNoLink [] [lsatFine] rfl
           (DVError.valueError "Link satellite references non-existent link: LNK_GONE")
           (by decide),
         (hsum (processHubs sampleCfg mC8all sampleRows)).1,
         (hsum (processHubs sampleCfg mC8all sampleRows)).2.2.2.2⟩

/-- Helper: find? skips a prefix in which nothing satisfies the predicate. -/
theorem find?_append_of_none {α : Type} (p : α → Bool) (l1 l2 : List α)
    (h : ∀ x ∈ l1, p x = false) : (l1 ++ l2).find? p = l2.find? p := by
  induction l1 with
  | nil => simp
  | cons x xs ih =>
    have hx : p x = false := h x (List.mem_cons_self _ _)
    have hxs : ∀ y ∈ xs, p y = false := fun y hy => h y (List.mem_cons_of_mem _ hy)
    simp [List.find?_cons, hx, ih hxs]

/-- Helper: dict lookup (last write wins) finds the value of the last
binding of a key. -/
theorem cacheFind_last {α : Type} (pre post : List (String × α)) (key : String) (v : α)
    (hpost : ∀ p ∈ post, p.fst ≠ key) :
    cacheFind (pre ++ (key, v) :: post) key = some v := by
  unfold cacheFind
  rw [List.reverse_append, List.reverse_cons]
  have hnone : ∀ x ∈ post.reverse, (fun p : String × α => p.fst == key) x = false := by
    intro x hx
    have := hpost x (List.mem_reverse.mp hx)
    simpa using this
  rw [List.append_assoc, find?_append_of_none _ post.reverse _ hnone]
  simp

/-- C9: the hub cache that the link phase installs is computed from the
declared input model alone: every hub contributes its declared business
keys and source tables, even when that hub's own build failed; and each
link outcome of the phase is computed against exactly that cache. -/
theorem C9_cache_from_declared_hubs (cfg : ParserConfig) (m : Model) (rows : List CatalogRow)
    (h : Hub) (pre post : List Hub) (hsplit : m.hubs = pre ++ h :: post)
    (hlast : ∀ h2 ∈ post, h2.name ≠ h.name)
    (e : DVError) (_hfail : hubParse cfg h rows = Except.error e) :
    cacheFind (cacheHubsMetadata m) h.name =
      some { business_keys := h.business_keys, source_tables := h.source_tables } ∧
    processLinks cfg m rows = m.links.map (linkOutcome cfg (cacheHubsMetadata m) rows) := by
  constructor
  · have hcache : cacheHubsMetadata m =
        pre.map (fun x => (x.name, ({ business_keys := x.business_keys,
                                      source_tables := x.source_tables } : HubMeta))) ++
        (h.name, ({ business_keys := h.business_keys,
                    source_tables := h.source_tables } : HubMeta)) ::
        post.map (fun x => (x.name, ({ business_keys := x.business_keys,
                                       source_tables := x.source_tables } : HubMeta))) := by
      simp [cacheHubsMetadata, hsplit]
    rw [hcache]
    apply cacheFind_last
    intro p hp
    obtain ⟨h2, hh2, rfl⟩ := List.mem_map.mp hp
    exact hlast h2 hh2
  · rfl

/-- C9 witness: in a model whose first hub fails to build (missing source
table), the link-phase cache still lists its declared keys and tables. -/
theorem C9_cache_from_declared_hubs_witness :
    cacheFind (cacheHubsMetadata mC8) hubGhostSrc.name =
      some { business_keys := hubGhostSrc.business_keys,
             source_tables := hubGhostSrc.source_tables } ∧
    processLinks sampleCfg mC8 sampleRows =
      mC8.links.map (linkOutcome sampleCfg (cacheHubsMetadata mC8) sampleRows) :=
  C9_cache_from_declared_hubs sampleCfg mC8 sampleRows hubGhostSrc [] [hubCustomer] rfl
    (by decide)
    (DVError.valueError "Could not determine source schema from mapping data") (by decide)

/-- C10: a satellite whose source table matches no catalog row does not
raise: the document is still produced with source_schema = None, the
outcome is non-error ("valid") with no warning recorded — unlike the hub,
link and link-satellite builders, whose schema resolution raises
ValueError in the same situation. -/
theorem C10_sat_schema_none (cfg : ParserConfig) (sat : Satellite) (rows : List CatalogRow)
    (habs : rows.filter (fun r => r.table_name == sat.source_table) = []) :
    (satParse cfg sat rows).source_schema = none ∧
    (satOutcome cfg rows sat).status = "valid" ∧
    (satOutcome cfg rows sat).err = none ∧
    (satParse cfg sat rows).metadata.validation_warnings = none ∧
    (∀ (lsat : LinkSatellite) (cache : List (String × LinkMeta)),
      rows.filter (fun r => r.table_name == lsat.source_table) = [] →
      lsatParse cfg cache lsat rows = Except.error (DVError.valueError
        ("Could not find source table " ++ lsat.source_table ++ " in mapping data"))) ∧
    hubGetSourceSchema [] = Except.error
      (DVError.valueError "Could not determine source schema from mapping data") ∧
    linkGetSourceSchema [] = Except.error
      (DVError.valueError "Could not determine source schema from mapping data") := by
  refine ⟨?_, ?_, ?_, ?_, ?_, rfl, rfl⟩
  · simp [satParse, satGetSourceSchema, satBuildOutputDict, habs]
  · simp [satOutcome, outcomeOf, satParse, satValidate, satBuildOutputDict, buildMetadata]
  · simp [satOutcome, outcomeOf]
  · simp [satParse, satValidate, satBuildOutputDict, buildMetadata]
  · intro lsat cache habs2
    unfold lsatParse lsatGetSourceSchema
    rw [habs2]

/-- C10 witness: the ghost satellite (source table absent from the sample
catalog) gets a document with a null source schema and a valid outcome. -/
theorem C10_sat_schema_none_witness :
    (satParse sampleCfg
      { name := "SAT_NOWHERE", hub := "HUB_CUSTOMER", business_keys := ["CUSTOMER_ID"],
        source_table := "NO_SUCH_TABLE", descriptive_attrs := [] } sampleRows).source_schema
      = none ∧
    (satOutcome sampleCfg sampleRows
      { name := "SAT_NOWHERE", hub := "HUB_CUSTOMER", business_keys := ["CUSTOMER_ID"],
        source_table := "NO_SUCH_TABLE", descriptive_attrs := [] }).status = "valid" :=
  ⟨(C10_sat_schema_none sampleCfg
      { name := "SAT_NOWHERE", hub := "HUB_CUSTOMER", business_keys := ["CUSTOMER_ID"],
        source_table := "NO_SUCH_TABLE", descriptive_attrs := [] } sampleRows (by decide)).1,
   (C10_sat_schema_none sampleCfg
      { name := "SAT_NOWHERE", hub := "HUB_CUSTOMER", business_keys := ["CUSTOMER_ID"],
        source_table := "NO_SUCH_TABLE", descriptive_attrs := [] } sampleRows (by decide)).2.1⟩

/-- Scenario D satellite: parented to HUB_CUSTOMER but declaring CUST_ID
while the hub's keys are CUSTOMER_ID. -/
def satD : Satellite :=
  { name := "SAT_CUSTOMER_PROFILE", hub := "HUB_CUSTOMER", business_keys := ["CUST_ID"],
    source_table := "CUSTOMERS", descriptive_attrs := ["CUST_NAME"] }

/-- Scenario D model. -/
def mC2 : Model := { hubs := [hubCustomer], satellites := [satD] }

/-- C2 counterexample: the Scenario D satellite has business keys that
differ from its parent hub's, yet the emitted document carries
validation_status "valid" and NO warnings (SatelliteParser.validate is an
empty stub), contradicting the claimed "warnings" status with two warning
classes. -/
theorem C2_counterexample :
    satD.business_keys ≠ hubCustomer.business_keys ∧
    (satParse sampleCfg satD sampleRows).metadata.validation_status = "valid" ∧
    (satParse sampleCfg satD sampleRows).metadata.validation_warnings = none ∧
    processSatellites sampleCfg mC2 sampleRows =
      [{ name := "SAT_CUSTOMER_PROFILE", status := "valid", warnings := none, err := none }] ∧
    ("valid" : String) ≠ "warnings" :=
  ⟨by decide, by decide, by decide, by decide, by decide⟩

/-- C2 as amended: satellites are not validated at all — satValidate
always returns no warnings and every satellite document is emitted with
status "valid" and no warnings.  For a Link-Satellite whose parent link is
cached, a key mismatch is never fatal and the validator returns EXACTLY
the concatenation of the two warning classes: the missing-from-parent
warning appears precisely when the parent has keys the entity lacks and
the extra-beyond-parent warning precisely when the entity has keys beyond
the parent, so a one-sided mismatch produces exactly the single
corresponding warning, a two-sided mismatch exactly both, and equal key
sets produce no warnings; any mismatch yields (when the source schema
resolves) a document with validation_status "warnings". -/
theorem C2_amended :
    (∀ sat : Satellite, satValidate sat = [] ∧
      ∀ (cfg : ParserConfig) (rows : List CatalogRow),
        (satParse cfg sat rows).metadata.validation_status = "valid" ∧
        (satParse cfg sat rows).metadata.validation_warnings = none) ∧
    (∀ (cfg : ParserConfig) (cache : List (String × LinkMeta)) (lsat : LinkSatellite)
        (meta : LinkMeta), cacheFind cache lsat.link = some meta →
      lsatValidate cache lsat = Except.ok
        ((if (meta.business_keys.filter (fun x => !(lsat.business_keys.contains x))).isEmpty
          then []
          else [lsatMissingMsg lsat
                 (meta.business_keys.filter (fun x => !(lsat.business_keys.contains x)))]) ++
         (if (lsat.business_keys.filter (fun x => !(meta.business_keys.contains x))).isEmpty
          then []
          else [lsatExtraMsg lsat
                 (lsat.business_keys.filter (fun x => !(meta.business_keys.contains x)))])) ∧
      (meta.business_keys.filter (fun x => !(lsat.business_keys.contains x)) ≠ [] →
        lsat.business_keys.filter (fun x => !(meta.business_keys.contains x)) = [] →
        lsatValidate cache lsat = Except.ok
          [lsatMissingMsg lsat
            (meta.business_keys.filter (fun x => !(lsat.business_keys.contains x)))]) ∧
      (meta.business_keys.filter (fun x => !(lsat.business_keys.contains x)) = [] →
        lsat.business_keys.filter (fun x => !(meta.business_keys.contains x)) ≠ [] →
        lsatValidate cache lsat = Except.ok
          [lsatExtraMsg lsat
            (lsat.business_keys.filter (fun x => !(meta.business_keys.contains x)))]) ∧
      (meta.business_keys.filter (fun x => !(lsat.business_keys.contains x)) ≠ [] →
        lsat.business_keys.filter (fun x => !(meta.business_keys.contains x)) ≠ [] →
        lsatValidate cache lsat = Except.ok
          [lsatMissingMsg lsat
            (meta.business_keys.filter (fun x => !(lsat.business_keys.contains x))),
           lsatExtraMsg lsat
            (lsat.business_keys.filter (fun x => !(meta.business_keys.contains x)))]) ∧
      (meta.business_keys.filter (fun x => !(lsat.business_keys.contains x)) = [] →
        lsat.business_keys.filter (fun x => !(meta.business_keys.contains x)) = [] →
        lsatValidate cache lsat = Except.ok []) ∧
      ((meta.business_keys.filter (fun x => !(lsat.business_keys.contains x)) ≠ [] ∨
        lsat.business_keys.filter (fun x => !(meta.business_keys.contains x)) ≠ []) →
        ∀ (rows : List CatalogRow) (row : CatalogRow) (rest : List CatalogRow),
          rows.filter (fun r => r.table_name == lsat.source_table) = row :: rest →
          ∃ ws, ws ≠ [] ∧
            lsatParse cfg cache lsat rows = Except.ok
              (lsatBuildOutputDict cfg lsat row.schema_name
                (fun k => satLookupOne cfg rows k) ws) ∧
            (lsatBuildOutputDict cfg lsat row.schema_name
                (fun k => satLookupOne cfg rows k) ws).metadata.validation_status
              = "warnings")) := by
  constructor
  · intro sat
    refine ⟨rfl, ?_⟩
    intro cfg rows
    constructor
    · simp [satParse, satValidate, satBuildOutputDict, buildMetadata]
    · simp [satParse, satValidate, satBuildOutputDict, buildMetadata]
  · intro cfg cache lsat meta hm
    have hval : lsatValidate cache lsat = Except.ok
        ((if (meta.business_keys.filter (fun x => !(lsat.business_keys.contains x))).isEmpty
          then []
          else [lsatMissingMsg lsat
                 (meta.business_keys.filter (fun x => !(lsat.business_keys.contains x)))]) ++
         (if (lsat.business_keys.filter (fun x => !(meta.business_keys.contains x))).isEmpty
          then []
          else [lsatExtraMsg lsat
                 (lsat.business_keys.filter (fun x => !(meta.business_keys.contains x)))])) := by
      unfold lsatValidate
      rw [hm]
    refine ⟨hval, ?_, ?_, ?_, ?_, ?_⟩
    · intro hne heq
      have hie1 : (meta.business_keys.filter
          (fun x => !(lsat.business_keys.contains x))).isEmpty = false := by
        simpa [List.isEmpty_iff] using hne
      have hie2 : (lsat.business_keys.filter
          (fun x => !(meta.business_keys.contains x))).isEmpty = true :=
        List.isEmpty_iff.mpr heq
      rw [hval, hie1, hie2]
      simp
    · intro heq hne
      have hie1 : (meta.business_keys.filter
          (fun x => !(lsat.business_keys.contains x))).isEmpty = true :=
        List.isEmpty_iff.mpr heq
      have hie2 : (lsat.business_keys.filter
          (fun x => !(meta.business_keys.contains x))).isEmpty = false := by
        simpa [List.isEmpty_iff] using hne
      rw [hval, hie1, hie2]
      simp
    · intro hne1 hne2
      have hie1 : (meta.business_keys.filter
          (fun x => !(lsat.business_keys.contains x))).isEmpty = false := by
        simpa [List.isEmpty_iff] using hne1
      have hie2 : (lsat.business_keys.filter
          (fun x => !(meta.business_keys.contains x))).isEmpty = false := by
        simpa [List.isEmpty_iff] using hne2
      rw [hval, hie1, hie2]
      simp
    · intro heq1 heq2
      have hie1 : (meta.business_keys.filter
          (fun x => !(lsat.business_keys.contains x))).isEmpty = true :=
        List.isEmpty_iff.mpr heq1
      have hie2 : (lsat.business_keys.filter
          (fun x => !(meta.business_keys.contains x))).isEmpty = true :=
        List.isEmpty_iff.mpr heq2
      rw [hval, hie1, hie2]
      simp
    · intro hor rows row rest hfilt
      have hwsne : ((if (meta.business_keys.filter
            (fun x => !(lsat.business_keys.contains x))).isEmpty
          then []
          else [lsatMissingMsg lsat
                 (meta.business_keys.filter (fun x => !(lsat.business_keys.contains x)))]) ++
         (if (lsat.business_keys.filter (fun x => !(meta.business_keys.contains x))).isEmpty
          then []
          else [lsatExtraMsg lsat
                 (lsat.business_keys.filter (fun x => !(meta.business_keys.contains x)))])) ≠
          [] := by
        intro hc
        obtain ⟨h1, h2⟩ := List.append_eq_nil.mp hc
        cases hor with
        | inl hne =>
          have hie : (meta.business_keys.filter
              (fun x => !(lsat.business_keys.contains x))).isEmpty = false := by
            simpa [List.isEmpty_iff] using hne
          rw [hie] at h1
          simp at h1
        | inr hne =>
          have hie : (lsat.business_keys.filter
              (fun x => !(meta.business_keys.contains x))).isEmpty = false := by
            simpa [List.isEmpty_iff] using hne
          rw [hie] at h2
          simp at h2
      have hwse : ((if (meta.business_keys.filter
            (fun x => !(lsat.business_keys.contains x))).isEmpty
          then []
          else [lsatMissingMsg lsat
                 (meta.business_keys.filter (fun x => !(lsat.business_keys.contains x)))]) ++
         (if (lsat.business_keys.filter (fun x => !(meta.business_keys.contains x))).isEmpty
          then []
          else [lsatExtraMsg lsat
                 (lsat.business_keys.filter
                   (fun x => !(meta.business_keys.contains x)))])).isEmpty = false := by
        simpa [List.isEmpty_iff] using hwsne
      refine ⟨_, hwsne, ?_, ?_⟩
      · unfold lsatParse lsatGetSourceSchema
        rw [hfilt, hval]
      · simp only [lsatBuildOutputDict, buildMetadata]
        rw [hwse]
        simp

/-- A link satellite with both a missing and an extra key relative to its
parent link lnkFix (keys ORDER_ID, CUSTOMER_ID). -/
def lsatBoth : LinkSatellite :=
  { name := "LSAT_BOTH", link := "LNK_ORDER_CUSTOMER",
    business_keys := ["ORDER_ID", "FOO_ID"], source_table := "ORDERS",
    descriptive_attrs := [] }

/-- A link satellite with only a missing key relative to lnkFix
(a one-sided mismatch). -/
def lsatMissOnly : LinkSatellite :=
  { name := "LSAT_MISS", link := "LNK_ORDER_CUSTOMER",
    business_keys := ["ORDER_ID"], source_table := "ORDERS",
    descriptive_attrs := [] }

/-- Model carrying lnkFix, used to build the link cache for the witness. -/
def mC2b : Model := { links := [lnkFix] }

/-- C2 amended witness: the satellite facts at Scenario D; a two-sided
mismatch yields exactly the two warnings, and a one-sided mismatch yields
exactly the single missing-keys warning. -/
theorem C2_amended_witness :
    satValidate satD = [] ∧
    (satParse sampleCfg satD sampleRows).metadata.validation_status = "valid" ∧
    lsatValidate (cacheLinksMetadata mC2b) lsatBoth = Except.ok
      [lsatMissingMsg lsatBoth ["CUSTOMER_ID"], lsatExtraMsg lsatBoth ["FOO_ID"]] ∧
    lsatValidate (cacheLinksMetadata mC2b) lsatMissOnly = Except.ok
      [lsatMissingMsg lsatMissOnly ["CUSTOMER_ID"]] := by
  obtain ⟨hv1, hMonly1, hEonly1, hBoth1, hNone1, hStat1⟩ :=
    C2_amended.2 sampleCfg (cacheLinksMetadata mC2b) lsatBoth
      { business_keys := ["ORDER_ID", "CUSTOMER_ID"],
        related_hubs := ["HUB_ORDER", "HUB_CUSTOMER"], source_tables := ["ORDERS"] }
      (by decide)
  obtain ⟨hv2, hMonly2, hEonly2, hBoth2, hNone2, hStat2⟩ :=
    C2_amended.2 sampleCfg (cacheLinksMetadata mC2b) lsatMissOnly
      { business_keys := ["ORDER_ID", "CUSTOMER_ID"],
        related_hubs := ["HUB_ORDER", "HUB_CUSTOMER"], source_tables := ["ORDERS"] }
      (by decide)
  exact ⟨(C2_amended.1 satD).1, ((C2_amended.1 satD).2 sampleCfg sampleRows).1,
    hBoth1 (by decide) (by decide), hMonly2 (by decide) (by decide)⟩

/-- A satellite whose declared parent hub exists in no cache or model. -/
def satGhost : Satellite :=
  { name := "SAT_GHOST", hub := "HUB_DOES_NOT_EXIST", business_keys := ["CUSTOMER_ID"],
    source_table := "CUSTOMERS", descriptive_attrs := [] }

/-- A link satellite whose declared parent link is not in the model. -/
def lsatOrphan : LinkSatellite :=
  { name := "LSAT_ORPHAN", link := "LNK_MISSING", business_keys := ["ORDER_ID"],
    source_table := "ORDERS", descriptive_attrs := [] }

/-- A well-parented link satellite processed after the orphan. -/
def lsatOk : LinkSatellite :=
  { name := "LSAT_ORDER_CUSTOMER", link := "LNK_ORDER_CUSTOMER",
    business_keys := ["ORDER_ID", "CUSTOMER_ID"], source_table := "ORDERS",
    descriptive_attrs := [] }

/-- Model for the unknown-parent scenarios: the satellite names a hub that
is not declared, the first link satellite names a link that is not
declared, and a second link satellite follows it. -/
def mC5 : Model :=
  { hubs := [hubCustomer], links := [lnkFix], satellites := [satGhost],
    link_satellites := [lsatOrphan, lsatOk] }

/-- C5: evaluating the code at the failing input.  A satellite whose
parent hub exists nowhere still produces a document and a NON-error
outcome with status "valid" (SatelliteParser consults no hub cache and its
validate is a stub), contradicting the claimed fatal error; the
link-satellite half of the claim does hold: an unknown parent link raises
ValueError, the outcome is "error", and the next link satellite of the
phase is still processed. -/
theorem C5_unknown_parent_behavior :
    (∀ h ∈ mC5.hubs, h.name ≠ satGhost.hub) ∧
    processSatellites sampleCfg mC5 sampleRows =
      [{ name := "SAT_GHOST", status := "valid", warnings := none, err := none }] ∧
    ("valid" : String) ≠ "error" ∧
    lsatValidate (cacheLinksMetadata mC5) lsatOrphan =
      Except.error (DVError.valueError
        "Link satellite references non-existent link: LNK_MISSING") ∧
    processLinkSatellites sampleCfg mC5 sampleRows =
      [{ name := "LSAT_ORPHAN", status := "error", warnings := none,
         err := some "Link satellite references non-existent link: LNK_MISSING" },
       { name := "LSAT_ORDER_CUSTOMER", status := "valid", warnings := none, err := none }] :=
  ⟨by decide, by decide, by decide, by decide, by decide⟩

end DV
